import Mathlib

/-!
Verification of the blackbox client-side telemetry pipeline.

Shallow embedding of the two core source classes:

* `TelemetryProcessor` (telemetry snapshot store + strategy advisor):
  the mutable `currentData` JS object is modelled as an association list
  `Obj = List (String × JVal)` with JS object semantics (string keys,
  assignment updates an existing key in place, otherwise appends;
  `key in obj` is key membership); `dataHistory` is a record of rings.
* `BlackboxWebSocketClient` (connection manager + message router):
  modelled as a record of the instance fields together with an
  event-step function producing a list of observable outputs
  (sent frames, status callbacks, handler invocations).

JS numbers are modelled as rationals (`ℚ`).  IEEE special values are not
modelled: division is rational division (theorems that depend on a
division carry a nonzero-divisor hypothesis), and comparisons against an
absent (`undefined`) field evaluate to `false`, exactly as NaN-flavoured
comparisons do in JS.
-/

/-- A JS value as it occurs in the telemetry snapshot: a number, a string,
a boolean, an absent value, a four-corner record such as `tireTemps`
(`{fl, fr, rl, rr}`), a numeric array such as `sectorTimes`, or a string
array such as a channel list. -/
inductive JVal where
  | undefined
  | num (q : ℚ)
  | str (s : String)
  | bool (b : Bool)
  | corner (fl fr rl rr : ℚ)
  | arr (xs : List ℚ)
  | strArr (xs : List String)
  deriving DecidableEq

/-- A JS object: ordered association list of string keys to values. -/
abbrev Obj := List (String × JVal)

/-- Property read `o[k]`: first binding of `k`, if any. -/
def getKey : Obj → String → Option JVal
  | [], _ => none
  | p :: rest, k => if p.1 = k then some p.2 else getKey rest k

/-- JS `k in o`. -/
def hasKey (o : Obj) (k : String) : Bool :=
  (getKey o k).isSome

/-- Property write `o[k] = v`: updates the existing binding in place,
otherwise appends a new one (JS insertion-order semantics). -/
def setKey : Obj → String → JVal → Obj
  | [], k, v => [(k, v)]
  | p :: rest, k, v => if p.1 = k then (k, v) :: rest else p :: setKey rest k v

/-- Read with JS `undefined` for a missing key. -/
def jgetD (o : Obj) (k : String) : JVal :=
  (getKey o k).getD .undefined

/-- JS truthiness, for `timestamp || Date.now()`. -/
def truthy : JVal → Bool
  | .undefined => false
  | .num q => q ≠ 0
  | .str s => s ≠ ""
  | .bool b => b
  | .corner _ _ _ _ => true
  | .arr _ => true
  | .strArr _ => true

/-- JS `/` on two values (numbers divide; anything else is not a number). -/
def jdiv : JVal → JVal → JVal
  | .num a, .num b => .num (a / b)
  | _, _ => .undefined

/-- JS `*` on two values. -/
def jmul : JVal → JVal → JVal
  | .num a, .num b => .num (a * b)
  | _, _ => .undefined

/-- JS `x < c` where `x` is a field read (absent or non-numeric compares false). -/
def jltB : Option JVal → ℚ → Bool
  | some (.num x), c => decide (x < c)
  | _, _ => false

/-- JS `x > c` where `x` is a field read. -/
def jgtB : Option JVal → ℚ → Bool
  | some (.num x), c => decide (c < x)
  | _, _ => false

/-- JS `a > b` on two field reads. -/
def numGtV : Option JVal → Option JVal → Bool
  | some (.num a), some (.num b) => decide (b < a)
  | _, _ => false

/-- JS `x === s` for a string comparison on a field read. -/
def strEqB : Option JVal → String → Bool
  | some (.str x), s => x = s
  | _, _ => false

/-- `Math.max(...Object.values(tireTemps)) > t` for a four-corner record. -/
def cornerMaxGt : Option JVal → ℚ → Bool
  | some (.corner a b c d), t => decide (t < max a (max b (max c d)))
  | _, _ => false

/-- `Object.values(tireTemps).reduce((s, x) => s + x, 0) / 4` for a
four-corner record; non-records give no number. -/
def tireAvg : Option JVal → JVal
  | some (.corner a b c d) => .num ((a + b + c + d) / 4)
  | _ => .undefined

/-- Numeric content of a value, defaulting to 0 (used only to render
interpolated suggestion texts). -/
def numOf : JVal → ℚ
  | .num q => q
  | _ => 0

/-- Decimal-free rendering of a rational for interpolated texts. -/
def ratStr (q : ℚ) : String :=
  if q.den = 1 then toString q.num else toString q.num ++ "/" ++ toString q.den

/- ### TelemetryProcessor: snapshot schema and demo data (constructor) -/

/-- The `currentData` snapshot schema as set up by the `TelemetryProcessor`
constructor, field for field in source order. -/
def initData : Obj :=
  [("speed", .num 0), ("maxSpeed", .num 0), ("gear", .str "N"), ("rpm", .num 0),
   ("throttle", .num 0), ("brake", .num 0), ("clutch", .num 0),
   ("steeringAngle", .num 0),
   ("engineTemp", .num 0), ("oilPressure", .num 0), ("oilTemp", .num 0),
   ("boostLevel", .num 0), ("engineMap", .str "MAP1"),
   ("pitLimiter", .bool false), ("engineHealth", .num 100),
   ("fuelLevel", .num 0), ("fuelCapacity", .num 100),
   ("fuelUsagePerLap", .num 0), ("estimatedLapsRemaining", .num 0),
   ("pitWindowOpen", .bool false),
   ("tireTemps", .corner 0 0 0 0), ("tirePressures", .corner 0 0 0 0),
   ("tireWear", .corner 0 0 0 0), ("tireSlipRatio", .num 0),
   ("rideHeight", .num 0), ("suspensionTravel", .num 0),
   ("camber", .corner 0 0 0 0), ("toe", .corner 0 0 0 0),
   ("currentLapTime", .num 0), ("lastLapTime", .num 0), ("bestLapTime", .num 0),
   ("deltaToOptimal", .num 0), ("sectorTimes", .arr [0, 0, 0]),
   ("position", .num 1), ("gapAhead", .num 0), ("gapBehind", .num 0),
   ("sessionType", .str "PRACTICE"), ("currentLap", .num 1),
   ("totalLaps", .num 0), ("timeRemaining", .num 0),
   ("flagStatus", .str "GREEN"),
   ("trackTemp", .num 20), ("airTemp", .num 18),
   ("trackCondition", .str "DRY"), ("trackName", .str "SILVERSTONE CIRCUIT"),
   ("drsStatus", .str "CLOSED"), ("kersLevel", .num 0),
   ("incidentCount", .num 0), ("penaltyTime", .num 0),
   ("brakeTemp", .corner 0 0 0 0), ("brakePressure", .num 0),
   ("positionX", .num 0), ("positionY", .num 0), ("positionZ", .num 0),
   ("velocityX", .num 0), ("velocityY", .num 0), ("velocityZ", .num 0)]

/-- Spread-with-overrides `{...base, k1: v1, ...}`: each override updates an
existing key in place or appends. -/
def spreadSet (base overrides : Obj) : Obj :=
  overrides.foldl (fun acc kv => setKey acc kv.1 kv.2) base

/-- The overrides applied by `initializeDemoData`, in source order. -/
def demoOverrides : Obj :=
  [("speed", .num 287), ("maxSpeed", .num 320), ("gear", .str "7"),
   ("rpm", .num 11847), ("throttle", .num 94), ("brake", .num 0),
   ("engineTemp", .num 89), ("oilPressure", .num 94),
   ("boostLevel", .num (14/10)), ("engineMap", .str "MAP2"),
   ("fuelLevel", .num (187/10)), ("fuelUsagePerLap", .num (21/10)),
   ("estimatedLapsRemaining", .num (89/10)), ("pitWindowOpen", .bool true),
   ("tireTemps", .corner 89 91 95 93),
   ("tirePressures", .corner (321/10) (323/10) (318/10) 32),
   ("tireWear", .corner 23 18 31 29),
   ("currentLapTime", .num (835/10)), ("lastLapTime", .num (8189/100)),
   ("bestLapTime", .num (81234/1000)), ("deltaToOptimal", .num (-743/1000)),
   ("sectorTimes", .arr [31234/1000, 28891/1000, 21765/1000]),
   ("position", .num 3), ("gapAhead", .num (2847/1000)),
   ("gapBehind", .num (1234/1000)),
   ("currentLap", .num 12), ("totalLaps", .num 25),
   ("drsStatus", .str "OPEN"), ("kersLevel", .num 85),
   ("brakeTemp", .corner 450 445 420 425),
   ("rideHeight", .num 35), ("suspensionTravel", .num 12)]

/-- The snapshot after the constructor ran `initializeDemoData` (note: the
constructor does not run `calculateDerivedValues`, so `fuelPercentage` and
`avgTireTemp` are not yet present). -/
def demoData : Obj := spreadSet initData demoOverrides

/- ### TelemetryProcessor: merge and derived values -/

/-- The merge loop of `updateCurrentData`:
`Object.keys(newData).forEach(key => if (key in currentData) currentData[key] = newData[key])`. -/
def mergeKeys (cur newData : Obj) : Obj :=
  newData.foldl (fun acc kv => if hasKey acc kv.1 then setKey acc kv.1 kv.2 else acc) cur

/-- `if (speed > maxSpeed) maxSpeed = speed`. -/
def stepMaxSpeed (o : Obj) : Obj :=
  if numGtV (getKey o "speed") (getKey o "maxSpeed")
  then setKey o "maxSpeed" (jgetD o "speed") else o

/-- `fuelPercentage = (fuelLevel / fuelCapacity) * 100`. -/
def stepFuelPct (o : Obj) : Obj :=
  setKey o "fuelPercentage"
    (jmul (jdiv (jgetD o "fuelLevel") (jgetD o "fuelCapacity")) (.num 100))

/-- `if (fuelUsagePerLap > 0) estimatedLapsRemaining = fuelLevel / fuelUsagePerLap`
(the division-by-zero guard: no update when usage is not positive). -/
def stepLapsRemaining (o : Obj) : Obj :=
  if jgtB (getKey o "fuelUsagePerLap") 0
  then setKey o "estimatedLapsRemaining"
         (jdiv (jgetD o "fuelLevel") (jgetD o "fuelUsagePerLap"))
  else o

/-- `avgTireTemp = mean(Object.values(tireTemps))`. -/
def stepAvgTire (o : Obj) : Obj :=
  setKey o "avgTireTemp" (tireAvg (getKey o "tireTemps"))

/-- `pitWindowOpen = fuelPercentage < 30 || estimatedLapsRemaining < 3`. -/
def stepPitWindow (o : Obj) : Obj :=
  setKey o "pitWindowOpen"
    (.bool (jltB (getKey o "fuelPercentage") 30 ||
            jltB (getKey o "estimatedLapsRemaining") 3))

/-- `calculateDerivedValues`, statement for statement in source order:
max-speed update, fuel percentage, guarded laps-remaining estimate,
average tire temperature, pit-window flag. -/
def calculateDerivedValues (o : Obj) : Obj :=
  stepPitWindow (stepAvgTire (stepLapsRemaining (stepFuelPct (stepMaxSpeed o))))

/-- `updateCurrentData(newData)`: merge, then recompute derived values. -/
def updateCurrentData (cur newData : Obj) : Obj :=
  calculateDerivedValues (mergeKeys cur newData)

/-- A sequence of `updateCurrentData` calls. -/
def applyUpdates (cur : Obj) (updates : List Obj) : Obj :=
  updates.foldl updateCurrentData cur

/-- The five keys written by `calculateDerivedValues`. -/
def derivedKeys : List String :=
  ["maxSpeed", "fuelPercentage", "estimatedLapsRemaining", "avgTireTemp", "pitWindowOpen"]

/- ### Strategy Advisor -/

/-- One advisory suggestion `{priority, text, gain, type}` as pushed by
`generateAISuggestions`. -/
structure Suggestion where
  priority : String
  text : String
  gain : String
  type : String
  deriving DecidableEq

/-- `generateAISuggestions`: rebuilds the suggestion list from scratch; each
threshold rule contributes at most one suggestion, in source order
(fuel-level, fuel-usage, tire-overheat, overtake, defense, engine). -/
def generateAISuggestions (o : Obj) : List Suggestion :=
  (if jltB (getKey o "fuelPercentage") 25 then
    [{ priority := "HIGH PRIORITY",
       text := "PIT WINDOW OPENS LAP " ++ ratStr (numOf (jgetD o "currentLap") + 2)
               ++ "-" ++ ratStr (numOf (jgetD o "currentLap") + 4),
       gain := "OPTIMAL: LAP " ++ ratStr (numOf (jgetD o "currentLap") + 3),
       type := "strategy" }]
   else [])
  ++ (if jgtB (getKey o "fuelUsagePerLap") (25/10) then
    [{ priority := "FUEL SAVE",
       text := "REDUCE FUEL USAGE BY 0.2L/LAP",
       gain := "EXTENDS STINT +" ++ toString (Rat.floor (numOf (jgetD o "fuelLevel") * (1/10)))
               ++ " LAPS",
       type := "fuel" }]
   else [])
  ++ (if cornerMaxGt (getKey o "tireTemps") 100 then
    [{ priority := "TIRE MANAGEMENT",
       text := "TIRE TEMPERATURES HIGH - MANAGE PACE",
       gain := "EXTENDS TIRE LIFE",
       type := "tires" }]
   else [])
  ++ (if jltB (getKey o "gapAhead") 1 && strEqB (getKey o "drsStatus") "AVAILABLE" then
    [{ priority := "HIGH PRIORITY",
       text := "OVERTAKE OPPORTUNITY - T13 STOWE CORNER",
       gain := "POTENTIAL GAIN: +0.3s",
       type := "overtake" }]
   else [])
  ++ (if jltB (getKey o "gapBehind") (15/10) then
    [{ priority := "DEFENSIVE",
       text := "DEFEND INSIDE LINE T1-T3",
       gain := "RISK LEVEL: MEDIUM",
       type := "defense" }]
   else [])
  ++ (if jgtB (getKey o "engineTemp") 95 then
    [{ priority := "ENGINE",
       text := "ENGINE TEMPERATURE HIGH - LIFT AND COAST",
       gain := "PREVENTS DAMAGE",
       type := "engine" }]
   else [])

/-- A suggestion produced by the two rules of the fuel-strategy section
(`type: 'strategy'` from low fuel percentage, `type: 'fuel'` from high
per-lap usage). -/
def fuelRelated (s : Suggestion) : Bool :=
  s.type = "strategy" || s.type = "fuel"

/-- A suggestion produced by the tire-temperature rule. -/
def tireRelated (s : Suggestion) : Bool :=
  s.type = "tires"

/- ### TelemetryProcessor: bounded history rings -/

/-- The four per-corner tire-temperature history rings. -/
structure TireHist where
  fl : List JVal
  fr : List JVal
  rl : List JVal
  rr : List JVal
  deriving DecidableEq

/-- The `dataHistory` record, field for field as in the constructor. -/
structure DataHistory where
  speed : List JVal
  rpm : List JVal
  fuelLevel : List JVal
  lapTimes : List JVal
  sectorTimes : List JVal
  tireTemps : TireHist
  engineTemp : List JVal
  timestamps : List JVal
  deriving DecidableEq

/-- The history-length cap applied after each insertion:
`if (ring.length > maxLen) ring = ring.slice(-maxLen)`. -/
def trimRing (maxLen : ℕ) (l : List JVal) : List JVal :=
  if maxLen < l.length then l.drop (l.length - maxLen) else l

/-- `updateHistory(timestamp)`: push the current value of each tracked field
(timestamps, speed, rpm, fuelLevel, engineTemp, the four tire corners),
then cap every ring at `maxLen` (`this.maxHistoryLength`, 300 in the
constructor).  A non-record `tireTemps` yields no corner keys to iterate. -/
def updateHistory (maxLen : ℕ) (h : DataHistory) (cur : Obj) (ts : JVal) (now : ℚ) :
    DataHistory :=
  let t := if truthy ts then ts else .num now
  let pushed : DataHistory :=
    { speed := h.speed ++ [jgetD cur "speed"]
      rpm := h.rpm ++ [jgetD cur "rpm"]
      fuelLevel := h.fuelLevel ++ [jgetD cur "fuelLevel"]
      lapTimes := h.lapTimes
      sectorTimes := h.sectorTimes
      tireTemps :=
        match getKey cur "tireTemps" with
        | some (.corner a b c d) =>
            { fl := h.tireTemps.fl ++ [.num a]
              fr := h.tireTemps.fr ++ [.num b]
              rl := h.tireTemps.rl ++ [.num c]
              rr := h.tireTemps.rr ++ [.num d] }
        | _ => h.tireTemps
      engineTemp := h.engineTemp ++ [jgetD cur "engineTemp"]
      timestamps := h.timestamps ++ [t] }
  { speed := trimRing maxLen pushed.speed
    rpm := trimRing maxLen pushed.rpm
    fuelLevel := trimRing maxLen pushed.fuelLevel
    lapTimes := trimRing maxLen pushed.lapTimes
    sectorTimes := trimRing maxLen pushed.sectorTimes
    tireTemps :=
      { fl := trimRing maxLen pushed.tireTemps.fl
        fr := trimRing maxLen pushed.tireTemps.fr
        rl := trimRing maxLen pushed.tireTemps.rl
        rr := trimRing maxLen pushed.tireTemps.rr }
    engineTemp := trimRing maxLen pushed.engineTemp
    timestamps := trimRing maxLen pushed.timestamps }

/- ### BlackboxWebSocketClient: state and configuration -/

/-- WebSocket `readyState` values. -/
inductive ReadyState where
  | connecting
  | isOpen
  | closing
  | closed
  deriving DecidableEq

/-- A registered message handler, abstracted to an identity and to whether
invoking it throws. -/
structure Handler where
  id : ℕ
  throws : Bool
  deriving DecidableEq

/-- A wire envelope `{type, timestamp, data}`; on the incoming side the
timestamp may be absent (`undefined`). -/
structure Envelope where
  typ : String
  timestamp : JVal
  data : Obj
  deriving DecidableEq

/-- Externally observable effects of one client step: a frame handed to
`ws.send`, a `notifyConnectionChange` callback, a `new WebSocket(...)`
construction, a `ws.close(...)` call, a user handler invocation, or a
logged handler exception (caught at the dispatch boundary). -/
inductive Output where
  | sent (e : Envelope)
  | status (s : String) (detail : String)
  | wsCreated
  | wsClose (code : Option ℕ)
  | handlerCalled (id : ℕ) (typ : String)
  | handlerErr (id : ℕ) (typ : String)
  deriving DecidableEq

/-- The configuration record accepted by the constructor. -/
structure WSConfig where
  serverUrl : String
  apiKey : String
  reconnectInterval : ℕ
  maxReconnectAttempts : ℕ
  heartbeatInterval : ℕ
  deriving DecidableEq

/-- The constructor defaults. -/
def defaultConfig : WSConfig :=
  { serverUrl := "ws://137.184.151.3:8766", apiKey := "",
    reconnectInterval := 3000, maxReconnectAttempts := 10,
    heartbeatInterval := 30000 }

/-- Instance state of `BlackboxWebSocketClient`.  The socket is abstracted
to its `readyState` (`none` = the `ws` field is null).  The anonymous
10-second connection timeout scheduled by `connect()` is never stored in a
field, so it is tracked here only as a count of pending firings
(`pendingConnTimeouts`); `clearTimers()` cannot touch it. -/
structure WSClient where
  ws : Option ReadyState
  isConnected : Bool
  reconnectAttempts : ℕ
  reconnectTimer : Option ℕ
  heartbeatTimer : Bool
  pendingConnTimeouts : ℕ
  handlers : List (String × List Handler)
  deriving DecidableEq

/-- The constructor's initial instance state. -/
def initClient : WSClient :=
  { ws := none, isConnected := false, reconnectAttempts := 0,
    reconnectTimer := none, heartbeatTimer := false,
    pendingConnTimeouts := 0, handlers := [] }

/-- `messageHandlers.get(type)` (empty when absent). -/
def handlersFor : List (String × List Handler) → String → List Handler
  | [], _ => []
  | p :: rest, t => if p.1 = t then p.2 else handlersFor rest t

/-- `messageHandlers.has(type)`. -/
def hasHandlers : List (String × List Handler) → String → Bool
  | [], _ => false
  | p :: rest, t => if p.1 = t then true else hasHandlers rest t

/-- `on(messageType, handler)`: append to the per-type list, creating it on
first registration. -/
def onRegister : List (String × List Handler) → String → Handler → List (String × List Handler)
  | [], t, h => [(t, [h])]
  | p :: rest, t, h => if p.1 = t then (p.1, p.2 ++ [h]) :: rest else p :: onRegister rest t h

/- ### BlackboxWebSocketClient: operations -/

/-- `send(type, data)`: refuses unless connected with an OPEN socket,
otherwise emits one stamped envelope. -/
def send (st : WSClient) (typ : String) (d : Obj) (now : ℚ) : Bool × List Output :=
  if st.isConnected = true ∧ st.ws = some .isOpen then
    (true, [.sent { typ := typ, timestamp := .num now, data := d }])
  else
    (false, [])

/-- The dispatch loop of `onMessage`: every handler registered for the type
runs in registration order inside a try/catch, so a throwing handler is
logged and the loop continues. -/
def dispatchOutputs (st : WSClient) (typ : String) : List Output :=
  if hasHandlers st.handlers typ then
    (handlersFor st.handlers typ).flatMap
      (fun h => .handlerCalled h.id typ ::
        (if h.throws then [.handlerErr h.id typ] else []))
  else []

/-- `onMessage(event)` on an already parsed envelope: `ping` is answered
with a `pong` carrying back the original timestamp and is never dispatched;
`pong` is consumed silently; everything else is dispatched. -/
def onMessage (st : WSClient) (e : Envelope) (now : ℚ) : WSClient × List Output :=
  if e.typ = "ping" then
    (st, (send st "pong" [("timestamp", e.timestamp)] now).2)
  else if e.typ = "pong" then
    (st, [])
  else
    (st, dispatchOutputs st e.typ)

/-- `connect()`: no-op when already CONNECTING or OPEN; otherwise builds a
socket and schedules the anonymous 10-second connection timeout.  (The
catch branch for a throwing WebSocket constructor is not modelled; no claim
depends on it.) -/
def connect (st : WSClient) : WSClient × List Output :=
  if st.ws = some .connecting ∨ st.ws = some .isOpen then
    (st, [])
  else
    ({ st with ws := some .connecting,
               pendingConnTimeouts := st.pendingConnTimeouts + 1 },
     [.wsCreated])

/-- `clearTimers()`: clears the reconnect and heartbeat timers — and only
those. -/
def clearTimers (st : WSClient) : WSClient :=
  { st with reconnectTimer := none, heartbeatTimer := false }

/-- `disconnect()`: drop the connected flag, clear the stored timers,
detach and (when OPEN) close the socket with code 1000, null the `ws`
field, and notify. -/
def disconnect (st : WSClient) : WSClient × List Output :=
  let st1 := clearTimers { st with isConnected := false }
  let closeOut : List Output := if st.ws = some .isOpen then [.wsClose (some 1000)] else []
  ({ st1 with ws := none }, closeOut ++ [.status "disconnected" ""])

/-- `scheduleReconnect()`: give up with a terminal `failed` notification
once the attempt count has reached the maximum; otherwise increment the
count and start the backoff timer `min(reconnectInterval * attempts, 30000)`. -/
def scheduleReconnect (cfg : WSConfig) (st : WSClient) : WSClient × List Output :=
  if cfg.maxReconnectAttempts ≤ st.reconnectAttempts then
    (st, [.status "failed" "Max reconnection attempts reached"])
  else
    let attempts := st.reconnectAttempts + 1
    ({ st with reconnectAttempts := attempts,
               reconnectTimer := some (min (cfg.reconnectInterval * attempts) 30000) },
     [.status "reconnecting" ("Attempt " ++ toString attempts)])

/-- Body of `onOpen` (the socket is already OPEN when it runs): set the
connected flag, reset the attempt count, clear timers, start the heartbeat,
send `auth` when a key is configured, send the channel subscription, and
notify. -/
def onOpenBody (cfg : WSConfig) (st : WSClient) (now : ℚ) : WSClient × List Output :=
  let st1 := { clearTimers st with isConnected := true, reconnectAttempts := 0 }
  let st2 := { st1 with heartbeatTimer := true }
  let authOut := if cfg.apiKey ≠ "" then (send st2 "auth" [("apiKey", .str cfg.apiKey)] now).2 else []
  let subOut := (send st2 "subscribe"
      [("channels", .strArr ["telemetry", "session", "timing", "strategy"])] now).2
  (st2, authOut ++ subOut ++ [.status "connected" ""])

/-- Body of `onClose` (the socket is already CLOSED when it runs): drop the
connected flag, clear timers, schedule a reconnect unless the close was the
clean local code 1000, and notify. -/
def onCloseBody (cfg : WSConfig) (st : WSClient) (code : ℕ) (reason : String) :
    WSClient × List Output :=
  let st1 := clearTimers { st with isConnected := false }
  let r := if code ≠ 1000 then scheduleReconnect cfg st1 else (st1, [])
  (r.1, r.2 ++ [.status "disconnected" reason])

/-- The events that can drive the client: the two public calls, the three
socket events, an incoming parsed message, and the three timer firings. -/
inductive Event where
  | connectCall
  | disconnectCall
  | openEvt
  | closeEvt (code : ℕ) (reason : String)
  | errorEvt
  | messageEvt (e : Envelope)
  | reconnectFire
  | heartbeatFire
  | connTimeoutFire
  deriving DecidableEq

/-- One step of the client.  Socket events are gated on a socket in the
right state (events of a detached or dead socket never reach the nulled-out
listeners); timer firings are gated on the timer actually pending. -/
def step (cfg : WSConfig) (st : WSClient) (ev : Event) (now : ℚ) :
    WSClient × List Output :=
  match ev with
  | .connectCall => connect st
  | .disconnectCall => disconnect st
  | .openEvt =>
      if st.ws = some .connecting then
        onOpenBody cfg { st with ws := some .isOpen } now
      else (st, [])
  | .closeEvt code reason =>
      match st.ws with
      | some rs =>
          if rs = .closed then (st, [])
          else onCloseBody cfg { st with ws := some .closed } code reason
      | none => (st, [])
  | .errorEvt =>
      match st.ws with
      | some rs =>
          if rs = .closed then (st, [])
          else (st, [.status "error" "Connection error"])
      | none => (st, [])
  | .messageEvt e =>
      if st.ws = some .isOpen then onMessage st e now else (st, [])
  | .reconnectFire =>
      match st.reconnectTimer with
      | some _ => connect { st with reconnectTimer := none }
      | none => (st, [])
  | .heartbeatFire =>
      if st.heartbeatTimer then
        (if st.isConnected then (st, (send st "ping" [("timestamp", .num now)] now).2)
         else (st, []))
      else (st, [])
  | .connTimeoutFire =>
      if 0 < st.pendingConnTimeouts then
        let st1 := { st with pendingConnTimeouts := st.pendingConnTimeouts - 1 }
        if st.ws = some .connecting then
          ({ st1 with ws := some .closing }, [.wsClose none])
        else (st1, [])
      else (st, [])

/-- Run a sequence of timed events, accumulating outputs. -/
def stepAll (cfg : WSConfig) (st : WSClient) : List (Event × ℚ) → WSClient × List Output
  | [] => (st, [])
  | p :: rest =>
      let r := step cfg st p.1 p.2
      let r2 := stepAll cfg r.1 rest
      (r2.1, r.2 ++ r2.2)

/-- Deliver a sequence of parsed envelopes through `onMessage`. -/
def processMsgs (st : WSClient) : List Envelope → ℚ → WSClient × List Output
  | [], _ => (st, [])
  | e :: es, now =>
      let r := onMessage st e now
      let r2 := processMsgs r.1 es now
      (r2.1, r.2 ++ r2.2)

/-- The handler invocations among a list of outputs, as (id, type) pairs. -/
def callsOf (outs : List Output) : List (ℕ × String) :=
  outs.filterMap fun o =>
    match o with
    | .handlerCalled i t => some (i, t)
    | _ => none

/- ### Accessors and aliasing (getCurrentData / getDataHistory) -/

/-- A stored JS value with reference semantics made explicit: primitives
live in the slot, compound values (four-corner records, history arrays,
nested objects) live on a heap and the slot holds the address. -/
inductive RVal where
  | num (q : ℚ)
  | str (s : String)
  | bool (b : Bool)
  | ref (addr : ℕ)
  deriving DecidableEq

/-- A heap cell: a four-corner record such as `tireTemps`, a history array,
or a nested object of references such as `dataHistory.tireTemps`. -/
inductive HVal where
  | corner (fl fr rl rr : ℚ)
  | ring (xs : List RVal)
  | robj (fields : List (String × RVal))
  deriving DecidableEq

/-- An object under reference semantics. -/
abbrev RObj := List (String × RVal)

/-- Heap of compound values, addressed by position. -/
abbrev Heap := List HVal

def hGet (h : Heap) (a : ℕ) : Option HVal := h.get? a

def hSet (h : Heap) (a : ℕ) (v : HVal) : Heap := h.set a v

/-- `o[k]` under reference semantics. -/
def rGetKey : RObj → String → Option RVal
  | [], _ => none
  | p :: rest, k => if p.1 = k then some p.2 else rGetKey rest k

/-- `o[k] = v` on an object's own (top-level) slot: a pure update of that
object, no heap write. -/
def rSetKey : RObj → String → RVal → RObj
  | [], k, v => [(k, v)]
  | p :: rest, k, v => if p.1 = k then (k, v) :: rest else p :: rSetKey rest k v

/-- The processor's state relevant to the accessors: the heap plus the two
objects `currentData` and `dataHistory` (whose compound fields are heap
references). -/
structure TStore where
  heap : Heap
  currentData : RObj
  dataHistory : RObj
  deriving DecidableEq

/-- `getCurrentData()`: `return { ...this.currentData }` — a fresh
top-level object with the same entries; nested references are shared with
the internal snapshot. -/
def getCurrentData (s : TStore) : RObj := s.currentData

/-- `getDataHistory()`: `return { ...this.dataHistory }` — same shallow
spread. -/
def getDataHistory (s : TStore) : RObj := s.dataHistory

/-- A caller's write `o.k.fl = v` through a corner reference: follows the
shared reference into the heap. -/
def writeCornerFl (h : Heap) (o : RObj) (k : String) (v : ℚ) : Heap :=
  match rGetKey o k with
  | some (.ref a) =>
      match hGet h a with
      | some (.corner _ fr rl rr) => hSet h a (.corner v fr rl rr)
      | _ => h
  | _ => h

/-- The internal snapshot's read of `o.k.fl`. -/
def readCornerFl (h : Heap) (o : RObj) (k : String) : Option ℚ :=
  match rGetKey o k with
  | some (.ref a) =>
      match hGet h a with
      | some (.corner fl _ _ _) => some fl
      | _ => none
  | _ => none

/-- A caller's `o.k.push(v)` through a shared array reference. -/
def pushRing (h : Heap) (o : RObj) (k : String) (v : RVal) : Heap :=
  match rGetKey o k with
  | some (.ref a) =>
      match hGet h a with
      | some (.ring xs) => hSet h a (.ring (xs ++ [v]))
      | _ => h
  | _ => h

/-- The internal history's read of the array at `o.k`. -/
def readRing (h : Heap) (o : RObj) (k : String) : Option (List RVal) :=
  match rGetKey o k with
  | some (.ref a) =>
      match hGet h a with
      | some (.ring xs) => some xs
      | _ => none
  | _ => none

/-- A caller's top-level assignment on a returned copy, paired with the
heap to make explicit that it performs no heap write. -/
def topAssign (h : Heap) (o : RObj) (k : String) (v : RVal) : Heap × RObj :=
  (h, rSetKey o k v)

/-- A store with the demo tire temperatures and a one-sample speed history,
used to exercise the accessors on concrete data. -/
def sampleStore : TStore :=
  { heap := [.corner 89 91 95 93, .ring [.num 287]],
    currentData := [("speed", .num 287), ("tireTemps", .ref 0)],
    dataHistory := [("speed", .ref 1)] }

/- ### Client-state predicates -/

/-- A timer firing (as opposed to a public call, socket event or message). -/
def timerEvent (e : Event) : Prop :=
  e = .reconnectFire ∨ e = .heartbeatFire ∨ e = .connTimeoutFire

/-- The state left behind by `disconnect()`: socket nulled, connected flag
down, both stored timers cleared. -/
def Quiescent (st : WSClient) : Prop :=
  st.ws = none ∧ st.isConnected = false ∧
  st.reconnectTimer = none ∧ st.heartbeatTimer = false

/-- A state with no live socket and no stored timer pending: nothing can
drive the client except an explicit call or a leftover anonymous
connection timeout (which finds no CONNECTING socket). -/
def Dormant (st : WSClient) : Prop :=
  (st.ws = none ∨ st.ws = some .closed) ∧ st.isConnected = false ∧
  st.reconnectTimer = none ∧ st.heartbeatTimer = false


/-- A concrete history with every pushed ring at capacity 3, used to
exercise the FIFO eviction on concrete data. -/
def sampleHist : DataHistory :=
  { speed := [.num 1, .num 2, .num 3]
    rpm := [.num 1, .num 2, .num 3]
    fuelLevel := [.num 1, .num 2, .num 3]
    lapTimes := []
    sectorTimes := []
    tireTemps :=
      { fl := [.num 1, .num 2, .num 3]
        fr := [.num 1, .num 2, .num 3]
        rl := [.num 1, .num 2, .num 3]
        rr := [.num 1, .num 2, .num 3] }
    engineTemp := [.num 1, .num 2, .num 3]
    timestamps := [.num 1, .num 2, .num 3] }


/- ### Association-list lemmas -/

theorem getKey_setKey_self (o : Obj) (k : String) (v : JVal) :
    getKey (setKey o k v) k = some v := by
  induction o with
  | nil => simp [setKey, getKey]
  | cons p rest ih =>
      by_cases h : p.1 = k
      · simp [setKey, getKey, h]
      · simp [setKey, getKey, h, ih]

theorem getKey_setKey_ne (o : Obj) (k k' : String) (v : JVal) (h : k' ≠ k) :
    getKey (setKey o k v) k' = getKey o k' := by
  have hk : ¬ k = k' := fun hh => h hh.symm
  induction o with
  | nil => simp [setKey, getKey, hk]
  | cons p rest ih =>
      by_cases hp : p.1 = k
      · subst hp
        simp [setKey, getKey, hk]
      · by_cases hp' : p.1 = k'
        · simp [setKey, getKey, hp, hp', h]
        · simp [setKey, getKey, hp, hp', ih]

theorem hasKey_setKey_of_hasKey (o : Obj) (k k' : String) (v : JVal)
    (h : hasKey o k = true) :
    hasKey (setKey o k v) k' = hasKey o k' := by
  by_cases hk : k' = k
  · subst hk
    simp only [hasKey, getKey_setKey_self, Option.isSome_some]
    exact (h.symm : _)
  · simp [hasKey, getKey_setKey_ne o k k' v hk]


/- ### Lemmas: merge frame conditions -/

theorem hasKey_cons (p : String × JVal) (rest : Obj) (k : String) :
    hasKey (p :: rest) k = if p.1 = k then true else hasKey rest k := by
  simp only [hasKey, getKey]
  split <;> simp

theorem mergeKeys_cons (cur : Obj) (p : String × JVal) (rest : List (String × JVal)) :
    mergeKeys cur (p :: rest) =
      mergeKeys (if hasKey cur p.1 then setKey cur p.1 p.2 else cur) rest := rfl

/-- Keys never present in the incoming partial are left untouched by the
merge loop. -/
theorem mergeKeys_getKey_of_not_hasKey (cur newData : Obj) (k : String)
    (h : hasKey newData k = false) :
    getKey (mergeKeys cur newData) k = getKey cur k := by
  induction newData generalizing cur with
  | nil => rfl
  | cons p rest ih =>
      rw [hasKey_cons] at h
      by_cases hp : p.1 = k
      · simp [hp] at h
      · simp only [hp, if_false] at h
        rw [mergeKeys_cons]
        by_cases hc : hasKey cur p.1
        · rw [if_pos hc, ih _ h, getKey_setKey_ne _ _ _ _ (fun hh => hp hh.symm)]
        · rw [if_neg hc, ih _ h]

/-- The merge loop never adds or removes keys: the snapshot schema is
stable. -/
theorem mergeKeys_hasKey (cur newData : Obj) (k : String) :
    hasKey (mergeKeys cur newData) k = hasKey cur k := by
  induction newData generalizing cur with
  | nil => rfl
  | cons p rest ih =>
      rw [mergeKeys_cons]
      by_cases hc : hasKey cur p.1
      · rw [if_pos hc, ih, hasKey_setKey_of_hasKey _ _ _ _ hc]
      · rw [if_neg hc, ih]

theorem hasKey_false_of_not_mem_keys (o : Obj) (k : String)
    (h : k ∉ o.map Prod.fst) : hasKey o k = false := by
  induction o with
  | nil => rfl
  | cons p rest ih =>
      simp only [List.map_cons, List.mem_cons] at h
      push_neg at h
      rw [hasKey_cons, if_neg (fun hh => h.1 hh.symm), ih h.2]

/-- A schema key present in the partial is overwritten with the partial's
value (keys of a JS object are unique). -/
theorem mergeKeys_getKey_overwrite (cur newData : Obj) (k : String) (v : JVal)
    (hnd : (newData.map Prod.fst).Nodup)
    (hc : hasKey cur k = true) (hv : getKey newData k = some v) :
    getKey (mergeKeys cur newData) k = some v := by
  induction newData generalizing cur with
  | nil => simp [getKey] at hv
  | cons p rest ih =>
      simp only [List.map_cons, List.nodup_cons] at hnd
      rw [mergeKeys_cons]
      by_cases hp : p.1 = k
      · have hvv : p.2 = v := by
          simpa [getKey, hp] using hv
        have hrest : hasKey rest k = false :=
          hasKey_false_of_not_mem_keys _ _ (hp ▸ hnd.1)
        rw [if_pos (hp ▸ hc), mergeKeys_getKey_of_not_hasKey _ _ _ hrest, hp,
            getKey_setKey_self, hvv]
      · have hv' : getKey rest k = some v := by
          simpa [getKey, hp] using hv
        by_cases hck : hasKey cur p.1
        · rw [if_pos hck]
          exact ih _ hnd.2 (by rw [hasKey_setKey_of_hasKey _ _ _ _ hck]; exact hc) hv'
        · rw [if_neg hck]
          exact ih _ hnd.2 hc hv'

/- ### Lemmas: derived-value recompute -/

theorem stepMaxSpeed_frame (o : Obj) (k : String) (h : k ≠ "maxSpeed") :
    getKey (stepMaxSpeed o) k = getKey o k := by
  unfold stepMaxSpeed
  split
  · exact getKey_setKey_ne _ _ _ _ h
  · rfl

theorem stepFuelPct_frame (o : Obj) (k : String) (h : k ≠ "fuelPercentage") :
    getKey (stepFuelPct o) k = getKey o k :=
  getKey_setKey_ne _ _ _ _ h

theorem stepLapsRemaining_frame (o : Obj) (k : String)
    (h : k ≠ "estimatedLapsRemaining") :
    getKey (stepLapsRemaining o) k = getKey o k := by
  unfold stepLapsRemaining
  split
  · exact getKey_setKey_ne _ _ _ _ h
  · rfl

theorem stepAvgTire_frame (o : Obj) (k : String) (h : k ≠ "avgTireTemp") :
    getKey (stepAvgTire o) k = getKey o k :=
  getKey_setKey_ne _ _ _ _ h

theorem stepPitWindow_frame (o : Obj) (k : String) (h : k ≠ "pitWindowOpen") :
    getKey (stepPitWindow o) k = getKey o k :=
  getKey_setKey_ne _ _ _ _ h

/-- `calculateDerivedValues` only ever writes the five derived keys. -/
theorem calcDerived_frame (o : Obj) (k : String) (h : k ∉ derivedKeys) :
    getKey (calculateDerivedValues o) k = getKey o k := by
  simp only [derivedKeys, List.mem_cons, List.not_mem_nil, or_false] at h
  push_neg at h
  obtain ⟨h1, h2, h3, h4, h5⟩ := h
  unfold calculateDerivedValues
  rw [stepPitWindow_frame _ _ h5, stepAvgTire_frame _ _ h4,
      stepLapsRemaining_frame _ _ h3, stepFuelPct_frame _ _ h2,
      stepMaxSpeed_frame _ _ h1]

/-- Values written by `calculateDerivedValues`, under typing hypotheses on
the snapshot it runs on (`L` fuel level, `C` capacity, `U` usage per lap,
`E` previous laps-remaining estimate, `a b c d` the tire corners). -/
theorem calcDerived_values (o : Obj) (L C U E a b c d : ℚ)
    (hL : getKey o "fuelLevel" = some (.num L))
    (hC : getKey o "fuelCapacity" = some (.num C))
    (hU : getKey o "fuelUsagePerLap" = some (.num U))
    (hE : getKey o "estimatedLapsRemaining" = some (.num E))
    (hT : getKey o "tireTemps" = some (.corner a b c d)) :
    getKey (calculateDerivedValues o) "fuelPercentage" = some (.num (L / C * 100)) ∧
    getKey (calculateDerivedValues o) "estimatedLapsRemaining" =
      some (.num (if 0 < U then L / U else E)) ∧
    getKey (calculateDerivedValues o) "avgTireTemp" =
      some (.num ((a + b + c + d) / 4)) ∧
    getKey (calculateDerivedValues o) "pitWindowOpen" =
      some (.bool (decide (L / C * 100 < 30) ||
                   decide ((if 0 < U then L / U else E) < 3))) := by
  -- the max-speed step touches none of the fields involved
  have m1L : getKey (stepMaxSpeed o) "fuelLevel" = some (.num L) := by
    rw [stepMaxSpeed_frame _ _ (by decide)]; exact hL
  have m1C : getKey (stepMaxSpeed o) "fuelCapacity" = some (.num C) := by
    rw [stepMaxSpeed_frame _ _ (by decide)]; exact hC
  have m1U : getKey (stepMaxSpeed o) "fuelUsagePerLap" = some (.num U) := by
    rw [stepMaxSpeed_frame _ _ (by decide)]; exact hU
  have m1E : getKey (stepMaxSpeed o) "estimatedLapsRemaining" = some (.num E) := by
    rw [stepMaxSpeed_frame _ _ (by decide)]; exact hE
  have m1T : getKey (stepMaxSpeed o) "tireTemps" = some (.corner a b c d) := by
    rw [stepMaxSpeed_frame _ _ (by decide)]; exact hT
  -- the fuel-percentage step
  set o2 := stepFuelPct (stepMaxSpeed o) with ho2
  have m2P : getKey o2 "fuelPercentage" = some (.num (L / C * 100)) := by
    rw [ho2]
    unfold stepFuelPct
    rw [getKey_setKey_self]
    simp [jgetD, m1L, m1C, jdiv, jmul]
  have m2L : getKey o2 "fuelLevel" = some (.num L) := by
    rw [ho2, stepFuelPct_frame _ _ (by decide)]; exact m1L
  have m2U : getKey o2 "fuelUsagePerLap" = some (.num U) := by
    rw [ho2, stepFuelPct_frame _ _ (by decide)]; exact m1U
  have m2E : getKey o2 "estimatedLapsRemaining" = some (.num E) := by
    rw [ho2, stepFuelPct_frame _ _ (by decide)]; exact m1E
  have m2T : getKey o2 "tireTemps" = some (.corner a b c d) := by
    rw [ho2, stepFuelPct_frame _ _ (by decide)]; exact m1T
  -- the guarded laps-remaining step
  set o3 := stepLapsRemaining o2 with ho3
  have m3E : getKey o3 "estimatedLapsRemaining" =
      some (.num (if 0 < U then L / U else E)) := by
    rw [ho3]
    unfold stepLapsRemaining
    rw [m2U]
    by_cases h0 : 0 < U
    · rw [if_pos (by simp [jgtB, h0]), getKey_setKey_self]
      simp [jgetD, m2L, m2U, jdiv, h0]
    · rw [if_neg (by simp [jgtB, h0]), if_neg h0]
      exact m2E
  have m3P : getKey o3 "fuelPercentage" = some (.num (L / C * 100)) := by
    rw [ho3, stepLapsRemaining_frame _ _ (by decide)]; exact m2P
  have m3T : getKey o3 "tireTemps" = some (.corner a b c d) := by
    rw [ho3, stepLapsRemaining_frame _ _ (by decide)]; exact m2T
  -- the average-tire-temperature step
  set o4 := stepAvgTire o3 with ho4
  have m4A : getKey o4 "avgTireTemp" = some (.num ((a + b + c + d) / 4)) := by
    rw [ho4]
    unfold stepAvgTire
    rw [getKey_setKey_self, m3T]
    rfl
  have m4P : getKey o4 "fuelPercentage" = some (.num (L / C * 100)) := by
    rw [ho4, stepAvgTire_frame _ _ (by decide)]; exact m3P
  have m4E : getKey o4 "estimatedLapsRemaining" =
      some (.num (if 0 < U then L / U else E)) := by
    rw [ho4, stepAvgTire_frame _ _ (by decide)]; exact m3E
  -- the pit-window step and the final reads
  have hfinal : calculateDerivedValues o = stepPitWindow o4 := rfl
  refine ⟨?_, ?_, ?_, ?_⟩
  · rw [hfinal, stepPitWindow_frame _ _ (by decide)]; exact m4P
  · rw [hfinal, stepPitWindow_frame _ _ (by decide)]; exact m4E
  · rw [hfinal, stepPitWindow_frame _ _ (by decide)]; exact m4A
  · rw [hfinal]
    unfold stepPitWindow
    rw [getKey_setKey_self, m4P, m4E]
    simp [jltB]

theorem calcDerived_hasKey_frame (o : Obj) (k : String) (h : k ∉ derivedKeys) :
    hasKey (calculateDerivedValues o) k = hasKey o k := by
  simp only [hasKey, calcDerived_frame o k h]

/-- One `updateCurrentData` call leaves every non-derived key absent from
the partial untouched. -/
theorem updateCurrentData_frame (cur u : Obj) (k : String)
    (hd : k ∉ derivedKeys) (hu : hasKey u k = false) :
    getKey (updateCurrentData cur u) k = getKey cur k := by
  unfold updateCurrentData
  rw [calcDerived_frame _ _ hd, mergeKeys_getKey_of_not_hasKey _ _ _ hu]

theorem applyUpdates_frame (cur : Obj) (us : List Obj) (k : String)
    (hd : k ∉ derivedKeys) (hu : ∀ u ∈ us, hasKey u k = false) :
    getKey (applyUpdates cur us) k = getKey cur k := by
  induction us generalizing cur with
  | nil => rfl
  | cons u rest ih =>
      have : applyUpdates cur (u :: rest) = applyUpdates (updateCurrentData cur u) rest := rfl
      rw [this, ih _ (fun x hx => hu x (List.mem_cons_of_mem _ hx)),
          updateCurrentData_frame _ _ _ hd (hu u (List.mem_cons_self _ _))]

/- ### Lemmas: history rings -/

theorem trimRing_length_le (n : ℕ) (l : List JVal) :
    (trimRing n l).length ≤ n := by
  unfold trimRing
  split
  · simp only [List.length_drop]
    omega
  · omega

theorem trimRing_fifo (n : ℕ) (l : List JVal) (x : JVal)
    (h : l.length = n) (hn : 0 < n) :
    trimRing n (l ++ [x]) = l.tail ++ [x] := by
  cases l with
  | nil =>
      simp only [List.length_nil] at h
      omega
  | cons y ys =>
      simp only [List.length_cons] at h
      have hc : n < ((y :: ys) ++ [x]).length := by
        simp only [List.length_append, List.length_cons, List.length_nil]
        omega
      have hd : ((y :: ys) ++ [x]).length - n = 1 := by
        simp only [List.length_append, List.length_cons, List.length_nil]
        omega
      rw [trimRing, if_pos hc, hd]
      simp

/- ### Lemmas: client quiescence after disconnect -/

theorem disconnect_quiescent (st : WSClient) : Quiescent (disconnect st).1 := by
  unfold disconnect clearTimers Quiescent
  simp

theorem disconnect_pending (st : WSClient) :
    (disconnect st).1.pendingConnTimeouts = st.pendingConnTimeouts := rfl

theorem step_quiescent (cfg : WSConfig) (st : WSClient) (e : Event) (now : ℚ)
    (hq : Quiescent st) (he : timerEvent e) :
    (step cfg st e now).2 = [] ∧ Quiescent (step cfg st e now).1 ∧
    (step cfg st e now).1.reconnectAttempts = st.reconnectAttempts ∧
    (step cfg st e now).1.handlers = st.handlers := by
  obtain ⟨h1, h2, h3, h4⟩ := hq
  rcases he with rfl | rfl | rfl
  · simp [step, h3, Quiescent, h1, h2, h4]
  · simp [step, h4, Quiescent, h1, h2, h3]
  · by_cases hp : 0 < st.pendingConnTimeouts
    · simp [step, hp, h1, Quiescent, h2, h3, h4]
    · simp [step, hp, Quiescent, h1, h2, h3, h4]

theorem stepAll_quiescent (cfg : WSConfig) (st : WSClient) (es : List (Event × ℚ))
    (hq : Quiescent st) (he : ∀ p ∈ es, timerEvent p.1) :
    (stepAll cfg st es).2 = [] ∧ Quiescent (stepAll cfg st es).1 ∧
    (stepAll cfg st es).1.reconnectAttempts = st.reconnectAttempts ∧
    (stepAll cfg st es).1.handlers = st.handlers := by
  induction es generalizing st with
  | nil => exact ⟨rfl, hq, rfl, rfl⟩
  | cons p rest ih =>
      have h1 := step_quiescent cfg st p.1 p.2 hq (he p (List.mem_cons_self _ _))
      have h2 := ih (step cfg st p.1 p.2).1 h1.2.1
        (fun x hx => he x (List.mem_cons_of_mem _ hx))
      refine ⟨?_, h2.2.1, ?_, ?_⟩
      · show (step cfg st p.1 p.2).2 ++ (stepAll cfg _ rest).2 = []
        rw [h1.1, h2.1, List.append_nil]
      · show (stepAll cfg _ rest).1.reconnectAttempts = _
        rw [h2.2.2.1, h1.2.2.1]
      · show (stepAll cfg _ rest).1.handlers = _
        rw [h2.2.2.2, h1.2.2.2]

/- ### Lemmas: no automatic reconnection from a dormant state -/

theorem step_dormant (cfg : WSConfig) (st : WSClient) (e : Event) (now : ℚ)
    (hd : Dormant st) (he : e ≠ .connectCall) :
    Output.wsCreated ∉ (step cfg st e now).2 ∧ Dormant (step cfg st e now).1 := by
  obtain ⟨hw, h2, h3, h4⟩ := hd
  cases e with
  | connectCall => exact absurd rfl he
  | disconnectCall =>
      rcases hw with hw | hw <;>
        simp [step, disconnect, clearTimers, hw, Dormant]
  | openEvt =>
      rcases hw with hw | hw <;>
        simp [step, hw, Dormant, h2, h3, h4]
  | closeEvt code reason =>
      rcases hw with hw | hw <;>
        simp [step, hw, Dormant, h2, h3, h4]
  | errorEvt =>
      rcases hw with hw | hw <;>
        simp [step, hw, Dormant, h2, h3, h4]
  | messageEvt e =>
      rcases hw with hw | hw <;>
        simp [step, hw, Dormant, h2, h3, h4]
  | reconnectFire =>
      simp [step, h3, Dormant, hw, h2, h4]
  | heartbeatFire =>
      simp [step, h4, Dormant, hw, h2, h3]
  | connTimeoutFire =>
      by_cases hp : 0 < st.pendingConnTimeouts
      · rcases hw with hw | hw <;>
          simp [step, hp, hw, Dormant, h2, h3, h4]
      · simp [step, hp, Dormant, hw, h2, h3, h4]

theorem stepAll_dormant (cfg : WSConfig) (st : WSClient) (es : List (Event × ℚ))
    (hd : Dormant st) (he : ∀ p ∈ es, p.1 ≠ .connectCall) :
    Output.wsCreated ∉ (stepAll cfg st es).2 ∧ Dormant (stepAll cfg st es).1 := by
  induction es generalizing st with
  | nil => exact ⟨List.not_mem_nil _, hd⟩
  | cons p rest ih =>
      have h1 := step_dormant cfg st p.1 p.2 hd (he p (List.mem_cons_self _ _))
      have h2 := ih (step cfg st p.1 p.2).1 h1.2
        (fun x hx => he x (List.mem_cons_of_mem _ hx))
      refine ⟨?_, h2.2⟩
      show Output.wsCreated ∉ (step cfg st p.1 p.2).2 ++ (stepAll cfg _ rest).2
      rw [List.mem_append]
      rintro (hc | hc)
      · exact h1.1 hc
      · exact h2.1 hc

/- ### Lemmas: message dispatch -/

theorem onMessage_state (st : WSClient) (e : Envelope) (now : ℚ) :
    (onMessage st e now).1 = st := by
  unfold onMessage
  split_ifs <;> rfl

theorem handlersFor_eq_nil (hs : List (String × List Handler)) (t : String)
    (h : hasHandlers hs t = false) : handlersFor hs t = [] := by
  induction hs with
  | nil => rfl
  | cons p rest ih =>
      by_cases hp : p.1 = t
      · simp [hasHandlers, hp] at h
      · simp only [hasHandlers, hp, if_false] at h
        simp only [handlersFor, hp, if_false]
        exact ih h

theorem callsOf_append (a b : List Output) :
    callsOf (a ++ b) = callsOf a ++ callsOf b :=
  List.filterMap_append _ _ _

theorem callsOf_flat (typ : String) (hs : List Handler) :
    callsOf (hs.flatMap fun h =>
      Output.handlerCalled h.id typ ::
        (if h.throws then [Output.handlerErr h.id typ] else [])) =
    hs.map fun h => (h.id, typ) := by
  induction hs with
  | nil => rfl
  | cons h rest ih =>
      by_cases ht : h.throws <;>
        simp [callsOf, List.filterMap_cons, ht, ← ih, List.flatMap_cons,
              List.filterMap_append]

/-- Dispatch invokes exactly the registered handlers for the type, in
registration order — whether or not any of them throws. -/
theorem callsOf_dispatchOutputs (st : WSClient) (typ : String) :
    callsOf (dispatchOutputs st typ) =
      (handlersFor st.handlers typ).map fun h => (h.id, typ) := by
  unfold dispatchOutputs
  by_cases hh : hasHandlers st.handlers typ
  · rw [if_pos hh, callsOf_flat]
  · rw [if_neg hh, handlersFor_eq_nil _ _ (by simpa using hh)]
    rfl

theorem callsOf_onMessage (st : WSClient) (e : Envelope) (now : ℚ) :
    callsOf (onMessage st e now).2 =
      if e.typ = "ping" ∨ e.typ = "pong" then []
      else (handlersFor st.handlers e.typ).map fun h => (h.id, e.typ) := by
  unfold onMessage
  by_cases h1 : e.typ = "ping"
  · rw [if_pos h1, if_pos (Or.inl h1)]
    unfold send
    split_ifs <;> rfl
  · by_cases h2 : e.typ = "pong"
    · rw [if_neg h1, if_pos h2, if_pos (Or.inr h2)]
      rfl
    · rw [if_neg h1, if_neg h2, if_neg (by tauto)]
      exact callsOf_dispatchOutputs st e.typ

/- ### Claim C1 -/

/-- C1 counterexample: as stated, the claim fails on the code.  With the
constructor's snapshot, merging the partial `{speed: 400}` — which does not
contain the key `maxSpeed` — changes `maxSpeed` from 320 to 400, because
`updateCurrentData` ends by running `calculateDerivedValues`, which
rewrites the derived fields. -/
theorem claim1_cex :
    hasKey [("speed", JVal.num 400)] "maxSpeed" = false ∧
    getKey demoData "maxSpeed" = some (.num 320) ∧
    getKey (updateCurrentData demoData [("speed", JVal.num 400)]) "maxSpeed" =
      some (.num 400) := by
  refine ⟨rfl, by decide, by with_unfolding_all decide⟩

/-- C1 (amended): the merge loop of `updateCurrentData` overwrites exactly
the schema keys present in the partial and ignores unknown keys; every
field that is neither mentioned in any partial nor one of the five derived
fields (`maxSpeed`, `fuelPercentage`, `estimatedLapsRemaining`,
`avgTireTemp`, `pitWindowOpen`, which `calculateDerivedValues` may rewrite
after each merge) keeps its previous value across any sequence of
`updateCurrentData` calls. -/
theorem claim1_frame :
    (∀ (cur : Obj) (us : List Obj) (k : String), k ∉ derivedKeys →
        (∀ u ∈ us, hasKey u k = false) →
        getKey (applyUpdates cur us) k = getKey cur k) ∧
    (∀ (cur u : Obj) (k : String) (v : JVal), (u.map Prod.fst).Nodup →
        k ∉ derivedKeys → hasKey cur k = true → getKey u k = some v →
        getKey (updateCurrentData cur u) k = some v) ∧
    (∀ (cur u : Obj) (k : String), k ∉ derivedKeys → hasKey cur k = false →
        hasKey (updateCurrentData cur u) k = false) := by
  refine ⟨applyUpdates_frame, fun cur u k v hnd hd hc hv => ?_, fun cur u k hd hc => ?_⟩
  · unfold updateCurrentData
    rw [calcDerived_frame _ _ hd]
    exact mergeKeys_getKey_overwrite _ _ _ _ hnd hc hv
  · unfold updateCurrentData
    rw [calcDerived_hasKey_frame _ _ hd, mergeKeys_hasKey]
    exact hc

/-- C1 witness: on the constructor snapshot, two merges that never mention
`gear` leave `gear` at `'7'`; a merge naming a schema key overwrites it;
an unknown key is never added to the schema. -/
theorem claim1_witness :
    getKey (applyUpdates demoData
      [[("rpm", JVal.num 12000)], [("speed", JVal.num 300), ("bogusKey", JVal.num 1)]])
      "gear" = getKey demoData "gear" ∧
    getKey (updateCurrentData demoData [("speed", JVal.num 300)]) "speed" =
      some (.num 300) ∧
    hasKey (updateCurrentData demoData [("bogusKey", JVal.num 1)]) "bogusKey" = false :=
  ⟨claim1_frame.1 demoData _ "gear" (by decide) (by decide),
   claim1_frame.2.1 demoData _ "speed" (JVal.num 300) (by decide) (by decide)
     (by with_unfolding_all decide) (by decide),
   claim1_frame.2.2 demoData _ "bogusKey" (by decide) (by with_unfolding_all decide)⟩

/- ### Claim C2 -/

/-- C2: after every `updateHistory` call each tracked ring (timestamps,
speed, rpm, fuelLevel, engineTemp and the four tire corners) has length at
most the capacity, and a ring that was at capacity has evicted exactly its
oldest element: the new ring is the old ring's tail with the new sample
appended (FIFO, order preserved).  The capacity is the
`maxHistoryLength` instance field, 300 in the constructor. -/
theorem claim2_history (maxLen : ℕ) (h : DataHistory) (cur : Obj)
    (ts : JVal) (now : ℚ) :
    ((updateHistory maxLen h cur ts now).timestamps.length ≤ maxLen ∧
     (updateHistory maxLen h cur ts now).speed.length ≤ maxLen ∧
     (updateHistory maxLen h cur ts now).rpm.length ≤ maxLen ∧
     (updateHistory maxLen h cur ts now).fuelLevel.length ≤ maxLen ∧
     (updateHistory maxLen h cur ts now).engineTemp.length ≤ maxLen ∧
     (updateHistory maxLen h cur ts now).tireTemps.fl.length ≤ maxLen ∧
     (updateHistory maxLen h cur ts now).tireTemps.fr.length ≤ maxLen ∧
     (updateHistory maxLen h cur ts now).tireTemps.rl.length ≤ maxLen ∧
     (updateHistory maxLen h cur ts now).tireTemps.rr.length ≤ maxLen) ∧
    (0 < maxLen →
      ((h.timestamps.length = maxLen →
          (updateHistory maxLen h cur ts now).timestamps =
            h.timestamps.tail ++ [if truthy ts then ts else .num now]) ∧
       (h.speed.length = maxLen →
          (updateHistory maxLen h cur ts now).speed =
            h.speed.tail ++ [jgetD cur "speed"]) ∧
       (h.rpm.length = maxLen →
          (updateHistory maxLen h cur ts now).rpm =
            h.rpm.tail ++ [jgetD cur "rpm"]) ∧
       (h.fuelLevel.length = maxLen →
          (updateHistory maxLen h cur ts now).fuelLevel =
            h.fuelLevel.tail ++ [jgetD cur "fuelLevel"]) ∧
       (h.engineTemp.length = maxLen →
          (updateHistory maxLen h cur ts now).engineTemp =
            h.engineTemp.tail ++ [jgetD cur "engineTemp"]) ∧
       (∀ a b c d : ℚ, getKey cur "tireTemps" = some (.corner a b c d) →
          (h.tireTemps.fl.length = maxLen →
             (updateHistory maxLen h cur ts now).tireTemps.fl =
               h.tireTemps.fl.tail ++ [.num a]) ∧
          (h.tireTemps.fr.length = maxLen →
             (updateHistory maxLen h cur ts now).tireTemps.fr =
               h.tireTemps.fr.tail ++ [.num b]) ∧
          (h.tireTemps.rl.length = maxLen →
             (updateHistory maxLen h cur ts now).tireTemps.rl =
               h.tireTemps.rl.tail ++ [.num c]) ∧
          (h.tireTemps.rr.length = maxLen →
             (updateHistory maxLen h cur ts now).tireTemps.rr =
               h.tireTemps.rr.tail ++ [.num d])))) := by
  refine ⟨⟨trimRing_length_le _ _, trimRing_length_le _ _, trimRing_length_le _ _,
           trimRing_length_le _ _, trimRing_length_le _ _, trimRing_length_le _ _,
           trimRing_length_le _ _, trimRing_length_le _ _, trimRing_length_le _ _⟩, ?_⟩
  intro hn
  refine ⟨fun hl => trimRing_fifo _ _ _ hl hn, fun hl => trimRing_fifo _ _ _ hl hn,
          fun hl => trimRing_fifo _ _ _ hl hn, fun hl => trimRing_fifo _ _ _ hl hn,
          fun hl => trimRing_fifo _ _ _ hl hn, ?_⟩
  intro a b c d hT
  simp only [updateHistory, hT]
  exact ⟨fun hl => trimRing_fifo _ _ _ hl hn, fun hl => trimRing_fifo _ _ _ hl hn,
         fun hl => trimRing_fifo _ _ _ hl hn, fun hl => trimRing_fifo _ _ _ hl hn⟩

/-- C2 witness: with capacity 3 and every ring at `[1, 2, 3]`, one
`updateHistory` on the constructor snapshot evicts exactly the `1` and
appends the new sample, and lengths stay at the capacity. -/
theorem claim2_witness :
    (updateHistory 3 sampleHist demoData (JVal.num 5) 7).speed =
      [.num 2, .num 3, .num 287] ∧
    (updateHistory 3 sampleHist demoData (JVal.num 5) 7).timestamps =
      [.num 2, .num 3, .num 5] ∧
    (updateHistory 3 sampleHist demoData (JVal.num 5) 7).tireTemps.fl =
      [.num 2, .num 3, .num 89] ∧
    (updateHistory 3 sampleHist demoData (JVal.num 5) 7).rpm.length ≤ 3 := by
  have H := claim2_history 3 sampleHist demoData (JVal.num 5) 7
  have H2 := H.2 (by decide)
  have HT := H2.2.2.2.2.2 89 91 95 93 (by decide)
  refine ⟨?_, ?_, ?_, H.1.2.2.1⟩
  · rw [H2.2.1 (by decide)]
    decide
  · rw [H2.1 (by decide)]
    decide
  · rw [HT.1 (by decide)]
    decide

/- ### Claim C3 -/

/-- C3: after every merge the derived fields satisfy
`fuelPercentage = fuelLevel / fuelCapacity * 100`,
`avgTireTemp = (fl + fr + rl + rr) / 4`,
`estimatedLapsRemaining = fuelLevel / fuelUsagePerLap` when the usage is
positive — the zero-usage case is guarded: no division happens and the
previous estimate is kept — and
`pitWindowOpen = (fuelPercentage < 30) || (estimatedLapsRemaining < 3)`.
Hypotheses type the merged snapshot's fields; the capacity is required
nonzero because the embedding's rational division does not model the
IEEE infinity JS would produce there. -/
theorem claim3_derived (cur upd : Obj) (L C U E a b c d : ℚ)
    (_hC0 : C ≠ 0)
    (hL : getKey (mergeKeys cur upd) "fuelLevel" = some (.num L))
    (hC : getKey (mergeKeys cur upd) "fuelCapacity" = some (.num C))
    (hU : getKey (mergeKeys cur upd) "fuelUsagePerLap" = some (.num U))
    (hE : getKey (mergeKeys cur upd) "estimatedLapsRemaining" = some (.num E))
    (hT : getKey (mergeKeys cur upd) "tireTemps" = some (.corner a b c d)) :
    getKey (updateCurrentData cur upd) "fuelPercentage" =
      some (.num (L / C * 100)) ∧
    getKey (updateCurrentData cur upd) "estimatedLapsRemaining" =
      some (.num (if 0 < U then L / U else E)) ∧
    getKey (updateCurrentData cur upd) "avgTireTemp" =
      some (.num ((a + b + c + d) / 4)) ∧
    getKey (updateCurrentData cur upd) "pitWindowOpen" =
      some (.bool (decide (L / C * 100 < 30) ||
                   decide ((if 0 < U then L / U else E) < 3))) :=
  calcDerived_values (mergeKeys cur upd) L C U E a b c d hL hC hU hE hT

/-- C3 witness: merging `{fuelLevel: 18.7, fuelCapacity: 100,
fuelUsagePerLap: 2.5}` into the constructor snapshot yields
`estimatedLapsRemaining = 7.48 (= 187/25)` and `pitWindowOpen = true`
(18.7 % fuel is below 30), with `fuelPercentage = 18.7` and
`avgTireTemp = 92`. -/
theorem claim3_witness :
    getKey (updateCurrentData demoData
        [("fuelLevel", JVal.num (187/10)), ("fuelCapacity", JVal.num 100),
         ("fuelUsagePerLap", JVal.num (5/2))]) "estimatedLapsRemaining" =
      some (.num (187/25)) ∧
    getKey (updateCurrentData demoData
        [("fuelLevel", JVal.num (187/10)), ("fuelCapacity", JVal.num 100),
         ("fuelUsagePerLap", JVal.num (5/2))]) "pitWindowOpen" =
      some (.bool true) ∧
    getKey (updateCurrentData demoData
        [("fuelLevel", JVal.num (187/10)), ("fuelCapacity", JVal.num 100),
         ("fuelUsagePerLap", JVal.num (5/2))]) "fuelPercentage" =
      some (.num (187/10)) ∧
    getKey (updateCurrentData demoData
        [("fuelLevel", JVal.num (187/10)), ("fuelCapacity", JVal.num 100),
         ("fuelUsagePerLap", JVal.num (5/2))]) "avgTireTemp" =
      some (.num 92) := by
  have H := claim3_derived demoData
    [("fuelLevel", JVal.num (187/10)), ("fuelCapacity", JVal.num 100),
     ("fuelUsagePerLap", JVal.num (5/2))]
    (187/10) 100 (5/2) (89/10) 89 91 95 93
    (by norm_num)
    (by with_unfolding_all decide) (by with_unfolding_all decide)
    (by with_unfolding_all decide) (by with_unfolding_all decide)
    (by with_unfolding_all decide)
  refine ⟨?_, ?_, ?_, ?_⟩
  · rw [H.2.1]
    with_unfolding_all decide
  · rw [H.2.2.2]
    with_unfolding_all decide
  · rw [H.1]
    with_unfolding_all decide
  · rw [H.2.2.1]
    with_unfolding_all decide

/- ### Claim C4 -/

/-- C4: while connected with an OPEN socket, a received `ping` envelope
produces exactly one outgoing `pong` envelope whose payload carries the
original envelope's timestamp, the client state is untouched, and no
registered handler is invoked (the returned output list contains the one
send and nothing else — `onMessage` returns before dispatch). -/
theorem claim4_ping_pong (st : WSClient) (e : Envelope) (now : ℚ)
    (hc : st.isConnected = true) (hw : st.ws = some .isOpen)
    (ht : e.typ = "ping") :
    onMessage st e now =
      (st, [.sent { typ := "pong", timestamp := .num now,
                    data := [("timestamp", e.timestamp)] }]) := by
  unfold onMessage send
  rw [if_pos ht, if_pos ⟨hc, hw⟩]

/-- C4 witness: even with a user handler registered for `ping`, the reply
is the single `pong` carrying timestamp 42 and the handler is not called. -/
theorem claim4_witness :
    onMessage
      { initClient with isConnected := true, ws := some .isOpen,
                        handlers := [("ping", [{ id := 1, throws := false }])] }
      { typ := "ping", timestamp := .num 42, data := [] } 100 =
    ({ initClient with isConnected := true, ws := some .isOpen,
                       handlers := [("ping", [{ id := 1, throws := false }])] },
     [.sent { typ := "pong", timestamp := .num 100,
              data := [("timestamp", JVal.num 42)] }]) :=
  claim4_ping_pong _ _ _ rfl rfl rfl

/- ### Claim C5 -/

/-- C5: the backoff delay scheduled before the k-th reconnection attempt is
`min(reconnectInterval * k, 30000)` (the cap is the literal 30000 in the
source; the interval defaults to 3000), the attempt counter becomes `k`,
the delay is non-decreasing in the attempt number, and it never exceeds
the cap. -/
theorem claim5_backoff (cfg : WSConfig) (st : WSClient) (k : ℕ)
    (hk : st.reconnectAttempts + 1 = k)
    (hmax : st.reconnectAttempts < cfg.maxReconnectAttempts) :
    (scheduleReconnect cfg st).1.reconnectTimer =
      some (min (cfg.reconnectInterval * k) 30000) ∧
    (scheduleReconnect cfg st).1.reconnectAttempts = k ∧
    (∀ j j' : ℕ, j ≤ j' →
       min (cfg.reconnectInterval * j) 30000 ≤
         min (cfg.reconnectInterval * j') 30000) ∧
    min (cfg.reconnectInterval * k) 30000 ≤ 30000 ∧
    defaultConfig.reconnectInterval = 3000 ∧
    defaultConfig.maxReconnectAttempts = 10 := by
  have hne : ¬ cfg.maxReconnectAttempts ≤ st.reconnectAttempts := Nat.not_le.mpr hmax
  refine ⟨?_, ?_, ?_, min_le_right _ _, rfl, rfl⟩
  · unfold scheduleReconnect
    rw [if_neg hne, hk]
  · unfold scheduleReconnect
    rw [if_neg hne]
    exact hk
  · intro j j' hj
    exact min_le_min (Nat.mul_le_mul_left _ hj) (le_refl _)

/-- C5 witness: with the default configuration, the fifth attempt is
scheduled after `min(3000 * 5, 30000) = 15000` ms, and the third attempt's
delay is at most the seventh's. -/
theorem claim5_witness :
    (scheduleReconnect defaultConfig
        { initClient with reconnectAttempts := 4 }).1.reconnectTimer = some 15000 ∧
    (scheduleReconnect defaultConfig
        { initClient with reconnectAttempts := 4 }).1.reconnectAttempts = 5 ∧
    min (defaultConfig.reconnectInterval * 3) 30000 ≤
      min (defaultConfig.reconnectInterval * 7) 30000 := by
  have H := claim5_backoff defaultConfig
    { initClient with reconnectAttempts := 4 } 5 rfl (by decide)
  refine ⟨?_, H.2.1, H.2.2.1 3 7 (by decide)⟩
  rw [H.1]
  decide

/- ### Claim C6 -/

/-- C6: when the attempt count has reached `maxReconnectAttempts` and the
socket closes uncleanly once more, the client notifies the terminal
`failed` status, schedules no backoff timer, and from that state no
sequence of events that does not contain an explicit `connect()` call ever
constructs a socket again or re-arms the reconnect timer. -/
theorem claim6_failed (cfg : WSConfig) (st : WSClient) (code : ℕ)
    (reason : String) (now : ℚ) (es : List (Event × ℚ))
    (hmax : cfg.maxReconnectAttempts ≤ st.reconnectAttempts)
    (hws : st.ws = some .isOpen)
    (hcode : code ≠ 1000)
    (hes : ∀ p ∈ es, p.1 ≠ Event.connectCall) :
    (step cfg st (.closeEvt code reason) now).2 =
      [.status "failed" "Max reconnection attempts reached",
       .status "disconnected" reason] ∧
    Dormant (step cfg st (.closeEvt code reason) now).1 ∧
    Output.wsCreated ∉
      (stepAll cfg (step cfg st (.closeEvt code reason) now).1 es).2 ∧
    (stepAll cfg (step cfg st (.closeEvt code reason) now).1 es).1.reconnectTimer
      = none := by
  have hstep : step cfg st (.closeEvt code reason) now =
      ({ st with ws := some .closed, isConnected := false,
                 reconnectTimer := none, heartbeatTimer := false },
       [.status "failed" "Max reconnection attempts reached",
        .status "disconnected" reason]) := by
    simp [step, hws, onCloseBody, clearTimers, scheduleReconnect, hcode, hmax]
  have hd : Dormant (step cfg st (.closeEvt code reason) now).1 := by
    rw [hstep]
    exact ⟨Or.inr rfl, rfl, rfl, rfl⟩
  have HD := stepAll_dormant cfg _ es hd hes
  exact ⟨by rw [hstep], hd, HD.1, HD.2.2.2.1⟩

/-- C6 witness: a client at the default maximum of 10 attempts that loses
its open socket (close code 1006) reports `failed` and stays dormant
through a reconnect-timer firing, a heartbeat firing, a connection-timeout
firing and a further close event. -/
theorem claim6_witness :
    (step defaultConfig
        { initClient with ws := some .isOpen, isConnected := true,
                          heartbeatTimer := true, reconnectAttempts := 10 }
        (.closeEvt 1006 "lost") 0).2 =
      [.status "failed" "Max reconnection attempts reached",
       .status "disconnected" "lost"] ∧
    Output.wsCreated ∉
      (stepAll defaultConfig
        (step defaultConfig
          { initClient with ws := some .isOpen, isConnected := true,
                            heartbeatTimer := true, reconnectAttempts := 10 }
          (.closeEvt 1006 "lost") 0).1
        [(.reconnectFire, 1), (.heartbeatFire, 2), (.connTimeoutFire, 3),
         (.closeEvt 1006 "x", 4)]).2 := by
  have H := claim6_failed defaultConfig
    { initClient with ws := some .isOpen, isConnected := true,
                      heartbeatTimer := true, reconnectAttempts := 10 }
    1006 "lost" 0
    [(.reconnectFire, 1), (.heartbeatFire, 2), (.connTimeoutFire, 3),
     (.closeEvt 1006 "x", 4)]
    (by decide) rfl (by decide) (by decide)
  exact ⟨H.1, H.2.2.1⟩

/- ### Claim C7 -/

/-- C7 counterexample: as stated, the claim fails on the code.  `connect()`
schedules an anonymous 10-second connection timeout that is never stored in
a field, so the `clearTimers()` inside `disconnect()` cannot cancel it:
right after `connect(); disconnect()` one connection-timeout firing is
still pending (the claim asserts all pending timers, including the
connection timeout, are cancelled). -/
theorem claim7_cex :
    (step defaultConfig initClient .connectCall 0).1.pendingConnTimeouts = 1 ∧
    (disconnect
      (step defaultConfig initClient .connectCall 0).1).1.pendingConnTimeouts = 1 :=
  ⟨rfl, rfl⟩

/-- C7 (amended): `disconnect()` synchronously clears the heartbeat and
reconnect timers, drops the socket and the connected flag; the anonymous
connection timeout is not cancelled and stays pending, but firing any
pending timer (heartbeat, reconnect, connection timeout) after the
disconnect produces no output whatsoever — no state transition, no status
callback, no sent message — and leaves the client quiescent. -/
theorem claim7_amended (cfg : WSConfig) (st : WSClient) (es : List (Event × ℚ))
    (hes : ∀ p ∈ es, timerEvent p.1) :
    Quiescent (disconnect st).1 ∧
    (disconnect st).1.pendingConnTimeouts = st.pendingConnTimeouts ∧
    (stepAll cfg (disconnect st).1 es).2 = [] ∧
    Quiescent (stepAll cfg (disconnect st).1 es).1 := by
  have hq := disconnect_quiescent st
  have H := stepAll_quiescent cfg _ es hq hes
  exact ⟨hq, rfl, H.1, H.2.1⟩

/-- C7 witness: connect, disconnect, then fire the leftover connection
timeout plus a heartbeat and a reconnect firing — no output is produced
and the client stays quiescent. -/
theorem claim7_witness :
    (stepAll defaultConfig
        (disconnect (step defaultConfig initClient .connectCall 0).1).1
        [(.connTimeoutFire, 11000), (.heartbeatFire, 30000),
         (.reconnectFire, 60000)]).2 = [] ∧
    Quiescent (stepAll defaultConfig
        (disconnect (step defaultConfig initClient .connectCall 0).1).1
        [(.connTimeoutFire, 11000), (.heartbeatFire, 30000),
         (.reconnectFire, 60000)]).1 := by
  have H := claim7_amended defaultConfig
    (step defaultConfig initClient .connectCall 0).1
    [(.connTimeoutFire, 11000), (.heartbeatFire, 30000), (.reconnectFire, 60000)]
    (by intro p hp; simp only [timerEvent]; fin_cases hp <;> simp)
  exact ⟨H.2.2.1, H.2.2.2⟩

/- ### Claim C8 -/

/-- C8: handler failures are isolated.  Over any sequence of envelopes,
the handler invocations are exactly the registered handlers of each
non-intercepted envelope's type, in registration order — an expression
independent of every handler's `throws` flag, so a throwing handler never
prevents the remaining handlers for the same envelope or the handlers of
any later envelope from running.  The closed conjunct shows it concretely:
handler 1 for type X throws, yet handler 2 (same type, same message) and
handler 3 (type Y, later message) still run. -/
theorem claim8_isolated :
    (∀ (st : WSClient) (es : List Envelope) (now : ℚ),
      callsOf (processMsgs st es now).2 =
        es.flatMap fun e =>
          if e.typ = "ping" ∨ e.typ = "pong" then []
          else (handlersFor st.handlers e.typ).map fun h => (h.id, e.typ)) ∧
    callsOf (processMsgs
        { initClient with handlers :=
            [("X", [{ id := 1, throws := true }, { id := 2, throws := false }]),
             ("Y", [{ id := 3, throws := false }])] }
        [{ typ := "X", timestamp := .undefined, data := [] },
         { typ := "Y", timestamp := .undefined, data := [] }] 0).2 =
      [(1, "X"), (2, "X"), (3, "Y")] := by
  constructor
  · intro st es now
    induction es with
    | nil => rfl
    | cons e rest ih =>
        show callsOf ((onMessage st e now).2 ++
            (processMsgs (onMessage st e now).1 rest now).2) = _
        rw [callsOf_append, onMessage_state, ih, callsOf_onMessage,
            List.flatMap_cons]
  · decide

/- ### Claim C9 -/

/-- C9 counterexample: as stated, the claim fails on the code.  Merging
`{fuelLevel: 50, fuelUsagePerLap: 3}` into the constructor snapshot gives a
state with every tire corner at most 100 and fuel percentage 50 (well above
30), yet the advisor emits a fuel-related suggestion, because the
fuel-usage rule `fuelUsagePerLap > 2.5` fires regardless of the fuel
percentage. -/
theorem claim9_cex :
    getKey (updateCurrentData demoData
        [("fuelLevel", JVal.num 50), ("fuelUsagePerLap", JVal.num 3)])
      "tireTemps" = some (.corner 89 91 95 93) ∧
    cornerMaxGt (getKey (updateCurrentData demoData
        [("fuelLevel", JVal.num 50), ("fuelUsagePerLap", JVal.num 3)])
      "tireTemps") 100 = false ∧
    getKey (updateCurrentData demoData
        [("fuelLevel", JVal.num 50), ("fuelUsagePerLap", JVal.num 3)])
      "fuelPercentage" = some (.num 50) ∧
    ((generateAISuggestions (updateCurrentData demoData
        [("fuelLevel", JVal.num 50), ("fuelUsagePerLap", JVal.num 3)])).any
      fuelRelated) = true := by
  with_unfolding_all decide

/-- C9 (amended): when no tire corner exceeds 100, the fuel percentage is
above 30, and additionally the per-lap fuel usage does not exceed 2.5, one
advisor pass produces no fuel-related and no tire-related suggestion. -/
theorem claim9_advisor (o : Obj) (P a b c d : ℚ)
    (hT : getKey o "tireTemps" = some (.corner a b c d))
    (ha : a ≤ 100) (hb : b ≤ 100) (hc : c ≤ 100) (hd : d ≤ 100)
    (hP : getKey o "fuelPercentage" = some (.num P))
    (hP30 : 30 < P)
    (hu : jgtB (getKey o "fuelUsagePerLap") (25/10) = false) :
    ∀ s ∈ generateAISuggestions o, fuelRelated s = false ∧ tireRelated s = false := by
  intro s hs
  have h1 : jltB (getKey o "fuelPercentage") 25 = false := by
    rw [hP]
    simp only [jltB, decide_eq_false_iff_not, not_lt]
    linarith
  have h3 : cornerMaxGt (getKey o "tireTemps") 100 = false := by
    rw [hT]
    simp only [cornerMaxGt, decide_eq_false_iff_not, not_lt]
    exact max_le ha (max_le hb (max_le hc hd))
  simp only [generateAISuggestions, h1, h3, hu, Bool.false_eq_true, if_false,
             List.nil_append, List.append_nil, List.mem_append] at hs
  rcases hs with ((hs | hs) | hs) <;>
    [skip; skip; skip] <;>
  · split at hs
    · simp only [List.mem_singleton] at hs
      subst hs
      exact ⟨by decide, by decide⟩
    · exact absurd hs (List.not_mem_nil s)

/-- C9 witness: on the constructor snapshot with fuel level raised to 50
(fuel percentage 50, usage 2.1, tire corners 89–95), the advisor's defense
suggestion — which that snapshot does produce — is neither fuel- nor
tire-related. -/
theorem claim9_witness :
    fuelRelated { priority := "DEFENSIVE", text := "DEFEND INSIDE LINE T1-T3",
                  gain := "RISK LEVEL: MEDIUM", type := "defense" } = false ∧
    tireRelated { priority := "DEFENSIVE", text := "DEFEND INSIDE LINE T1-T3",
                  gain := "RISK LEVEL: MEDIUM", type := "defense" } = false := by
  refine claim9_advisor
    (updateCurrentData demoData [("fuelLevel", JVal.num 50)]) 50 89 91 95 93
    (by with_unfolding_all decide)
    (by decide) (by decide) (by decide) (by decide)
    (by with_unfolding_all decide)
    (by decide)
    (by with_unfolding_all decide)
    _ (by with_unfolding_all decide)

/- ### Claim C10 -/

theorem hGet_hSet_self (h : Heap) (a : ℕ) (v w : HVal)
    (hx : hGet h a = some w) : hGet (hSet h a v) a = some v := by
  induction h generalizing a with
  | nil => simp [hGet] at hx
  | cons x rest ih =>
      cases a with
      | zero => rfl
      | succ n => exact ih n hx

/-- C10 counterexample: as stated, the claim fails on the code.  The
accessors return shallow spreads, so on the sample store a caller that
mutates `copy.tireTemps.fl` through the object returned by
`getCurrentData()` changes the value the internal snapshot subsequently
reads from 89 to 999, and pushing onto `copy.speed` through
`getDataHistory()`'s result grows the internal speed ring. -/
theorem claim10_cex :
    readCornerFl sampleStore.heap sampleStore.currentData "tireTemps" = some 89 ∧
    readCornerFl
      (writeCornerFl sampleStore.heap (getCurrentData sampleStore) "tireTemps" 999)
      sampleStore.currentData "tireTemps" = some 999 ∧
    readRing sampleStore.heap sampleStore.dataHistory "speed" = some [.num 287] ∧
    readRing
      (pushRing sampleStore.heap (getDataHistory sampleStore) "speed" (.num 0))
      sampleStore.dataHistory "speed" = some [.num 287, .num 0] := by
  decide

/-- C10 (amended): `getCurrentData()` returns a shallow copy
(`{...currentData}`): it is a fresh top-level record sharing every nested
reference with the internal snapshot, so a caller's top-level assignment on
the copy performs no heap write and leaves every internal read unchanged,
while a write through a shared nested reference (such as a tire-temperature
record) becomes visible to the internal snapshot. -/
theorem claim10_shallow (s : TStore) (k : String) (a : ℕ)
    (fl fr rl rr v : ℚ) (k' : String) (v' : RVal)
    (hk : rGetKey s.currentData k = some (.ref a))
    (hh : hGet s.heap a = some (.corner fl fr rl rr)) :
    rGetKey (getCurrentData s) k = some (.ref a) ∧
    (topAssign s.heap (getCurrentData s) k' v').1 = s.heap ∧
    readCornerFl (topAssign s.heap (getCurrentData s) k' v').1
      s.currentData k = some fl ∧
    readCornerFl (writeCornerFl s.heap (getCurrentData s) k v)
      s.currentData k = some v := by
  refine ⟨hk, rfl, ?_, ?_⟩
  · show readCornerFl s.heap s.currentData k = some fl
    simp only [readCornerFl, hk, hh]
  · show readCornerFl (writeCornerFl s.heap s.currentData k v)
        s.currentData k = some v
    simp only [writeCornerFl, readCornerFl, hk, hh,
      hGet_hSet_self s.heap a (HVal.corner v fr rl rr)
        (HVal.corner fl fr rl rr) hh]

/-- C10 witness: on the sample store, the shared `tireTemps` reference is
visible through the copy, a top-level assignment of `copy.speed` touches no
heap cell and leaves the internal tire read at 89, and the nested write
through the copy lands at 999 internally. -/
theorem claim10_witness :
    rGetKey (getCurrentData sampleStore) "tireTemps" = some (.ref 0) ∧
    (topAssign sampleStore.heap (getCurrentData sampleStore) "speed"
        (RVal.num 0)).1 = sampleStore.heap ∧
    readCornerFl (topAssign sampleStore.heap (getCurrentData sampleStore) "speed"
        (RVal.num 0)).1 sampleStore.currentData "tireTemps" = some 89 ∧
    readCornerFl (writeCornerFl sampleStore.heap (getCurrentData sampleStore)
        "tireTemps" 999) sampleStore.currentData "tireTemps" = some 999 :=
  claim10_shallow sampleStore "tireTemps" 0 89 91 95 93 999 "speed" (RVal.num 0)
    rfl rfl
